import Mathlib

/-!
# Verification of the Wasserstein GAN trainer

Shallow embedding of `WassersteinGANTrainer.py`. Tensors are lists: a batch
is a `List α` of rows (the row type `α` is abstract), the discriminator's
flattened scores and the flattened label column are `List ℚ`. The neural
models, the samplers, the loss functions and the optimizer steps are opaque
collaborators supplied through a `GANEnv` record, exactly as the class
receives them at construction. The train loop body (lines 42-98 of
`WassersteinGANTrainer.train`) becomes `trainStep`, which also returns a
`StepObs` record of observations at the named program points (mode of each
model at each forward pass, the confusion counts, the loss value) so that
frame properties about the loop body can be stated.
-/

/-- Model role tag: the two keys "G" and "D" of the role-keyed dictionaries. -/
inductive Role
  | G
  | D
deriving DecidableEq, Repr

/-- A torch module's mode: `.train()` puts it in `training`, `.eval()` in
`inference`. -/
inductive Mode
  | training
  | inference
deriving DecidableEq, Repr

/-- The statistics ledger set up in `WassersteinGANTrainer.__init__`
(lines 29-34): per-role loss sequences and epoch counters, and the three
rate-metric sequences. -/
structure TrainerStats where
  losses_G : List ℚ
  losses_D : List ℚ
  epochs_trained_G : Nat
  epochs_trained_D : Nat
  d_fpr : List ℚ
  d_precision : List ℚ
  d_recall : List ℚ
deriving DecidableEq, Repr

/-- Mutable trainer state threaded through the train loop: the ledger, the
two models' modes, the two models' (flattened) parameter vectors, and the
`all_dists` list local to `train`. -/
structure TrainerState where
  stats : TrainerStats
  gMode : Mode
  dMode : Mode
  gParams : List ℚ
  dParams : List ℚ
  all_dists : List ℚ
deriving DecidableEq, Repr

/-- The opaque collaborators handed to `WassersteinGANTrainer.__init__`:
samplers, the two models' forward functions, the two loss functions, the two
optimizer parameter updates, and the threshold `d_thresh`.

The field `all_Wasserstein_dists` is Modelled from the spec: the method
`SuperTrainer.all_Wasserstein_dists` is not under src/ (only its call site
is); per the spec it computes the pairwise Wasserstein/earth-mover distances
between two batches, so it is kept as an opaque binary batch function. -/
structure GANEnv (α : Type) where
  latent_space : Nat → List α
  dataset : Nat → List α
  gModel : List α → List α
  dModel : List α → List ℚ
  g_loss : List ℚ → List ℚ → ℚ
  d_loss : List ℚ → List ℚ → ℚ
  gOptStep : List ℚ → List ℚ
  dOptStep : List ℚ → List ℚ
  all_Wasserstein_dists : List α → List α → List ℚ
  d_thresh : ℚ

/-- The `loss_functions` dictionary of `__init__` (line 27). -/
def loss_functions (env : GANEnv α) : Role → List ℚ → List ℚ → ℚ
  | Role.G => env.g_loss
  | Role.D => env.d_loss

/-- Result of an input-construction function `(dis_in, y)` (line 49),
instrumented with the generator's mode during its forward pass inside the
function and its mode when the function returns. -/
structure InputResult (α : Type) where
  dis_in : List α
  y : List ℚ
  gModeAtForward : Mode
  gModeAfter : Mode

/-- `WassersteinGANTrainer.discriminator_input` (lines 131-138):
`gen_in = latent_space(ceil(n_batch/2))`; the generator is put in eval mode,
run on `gen_in`, and put back in train mode; `dis_in` concatenates the
generator output with `dataset(floor(n_batch/2))`; the labels are
`ceil(n_batch/2)` zeros followed by `floor(n_batch/2)` ones. -/
def discriminator_input (env : GANEnv α) (_gMode : Mode) (n_batch : Nat) :
    InputResult α :=
  let gen_in := env.latent_space ((n_batch + 1) / 2)
  let gen_out := env.gModel gen_in
  let dis_in := gen_out ++ env.dataset (n_batch / 2)
  let y := List.replicate ((n_batch + 1) / 2) (0 : ℚ)
            ++ List.replicate (n_batch / 2) (1 : ℚ)
  { dis_in := dis_in, y := y,
    gModeAtForward := Mode.inference, gModeAfter := Mode.training }

/-- `WassersteinGANTrainer.generator_input` (lines 140-144):
`gen_in = latent_space(n_batch)`; the generator runs in whatever mode it is
in (no mode toggle); labels are `n_batch` ones. -/
def generator_input (env : GANEnv α) (gMode : Mode) (n_batch : Nat) :
    InputResult α :=
  let gen_in := env.latent_space n_batch
  let gen_out := env.gModel gen_in
  let y := List.replicate n_batch (1 : ℚ)
  { dis_in := gen_out, y := y,
    gModeAtForward := gMode, gModeAfter := gMode }

/-- The `in_functions` dictionary of `__init__` (lines 25-26). -/
def in_functions (env : GANEnv α) : Role → Mode → Nat → InputResult α
  | Role.G => generator_input env
  | Role.D => discriminator_input env

/-- The confusion-count loop of `train` (lines 62-76): walk the flattened
labels and predictions in lockstep, returning `(fP, fN, tP, tN)`. -/
def confusionCounts (d_thresh : ℚ) :
    List ℚ → List ℚ → Nat × Nat × Nat × Nat
  | [], _ => (0, 0, 0, 0)
  | _ :: _, [] => (0, 0, 0, 0)
  | yv :: ys, pv :: ps =>
    let r := confusionCounts d_thresh ys ps
    if yv = 0 then
      if pv > d_thresh then (r.1 + 1, r.2.1, r.2.2.1, r.2.2.2)
      else (r.1, r.2.1, r.2.2.1, r.2.2.2 + 1)
    else
      if pv > d_thresh then (r.1, r.2.1, r.2.2.1 + 1, r.2.2.2)
      else (r.1, r.2.1 + 1, r.2.2.1, r.2.2.2)

/-- The guarded rate appends of `train` (lines 78-83): each of fpr,
precision, recall is appended to its ledger sequence only when its
denominator is positive. -/
def recordRates (d_thresh : ℚ) (y_flat mod_pred_flat : List ℚ)
    (stats : TrainerStats) : TrainerStats :=
  let c := confusionCounts d_thresh y_flat mod_pred_flat
  let fP := c.1
  let fN := c.2.1
  let tP := c.2.2.1
  let tN := c.2.2.2
  let s1 := if fP + tN > 0 then
    { stats with d_fpr := stats.d_fpr ++ [(fP : ℚ) / ((fP : ℚ) + (tN : ℚ))] }
    else stats
  let s2 := if tP + fP > 0 then
    { s1 with d_precision :=
        s1.d_precision ++ [(tP : ℚ) / ((tP : ℚ) + (fP : ℚ))] }
    else s1
  let s3 := if tP + fN > 0 then
    { s2 with d_recall := s2.d_recall ++ [(tP : ℚ) / ((tP : ℚ) + (fN : ℚ))] }
    else s2
  s3

/-- Element-wise `tensor.clamp_(lo, hi)`. -/
def clamp (lo hi x : ℚ) : ℚ := max lo (min x hi)

/-- `torch.mean` of a flat tensor. -/
def mean (xs : List ℚ) : ℚ := xs.sum / (xs.length : ℚ)

/-- Modelled from the spec: `SuperTrainer.eval("G", in_dat)` (reached
through `eval_generator`, line 96) is not under src/; per the spec it runs
the generator in inference mode on the input and returns the raw prediction
with no persistent mode change, so functionally it is the generator's
forward pass. -/
def eval_generator (env : GANEnv α) (in_dat : List α) : List α :=
  env.gModel in_dat

/-- Observations of one pass through the loop body, naming the quantities
at the program points of `train` lines 42-98. -/
structure StepObs where
  tt : Role
  y_flat : List ℚ
  mod_pred_flat : List ℚ
  mod_loss : ℚ
  fP : Nat
  fN : Nat
  tP : Nat
  tN : Nat
  dModeAtForward : Mode
  dModeAtBackward : Mode
  gModeAtInputForward : Mode

/-- One iteration of the `for epoch in range(n_epochs)` loop of
`WassersteinGANTrainer.train` (lines 42-98):
ask the scheduling policy for the role `tt`; build `(dis_in, y)` with
`in_functions[tt]`; if `tt == "G"` put the discriminator in eval mode; run
the discriminator forward; put the discriminator back in train mode;
compute the loss; append it to `losses[tt]` and bump `epochs_trained[tt]`;
compute the confusion counts and the guarded rate appends; step the trained
role's optimizer, and if `tt == "D"` clamp every discriminator parameter
into [-0.01, 0.01]; finally append the mean pairwise Wasserstein distance
between a fresh generator batch and a fresh dataset batch (256 points each)
to `all_dists`. -/
def trainStep (env : GANEnv α) (policy : TrainerState → Role)
    (n_batch : Nat) (s : TrainerState) : TrainerState × StepObs :=
  let tt := policy s
  let inp := in_functions env tt s.gMode n_batch
  let dModeForward := if tt = Role.G then Mode.inference else s.dMode
  let mod_pred := env.dModel inp.dis_in
  let dModeAfter := Mode.training
  let mod_loss := loss_functions env tt mod_pred inp.y
  let stats1 : TrainerStats :=
    match tt with
    | Role.G => { s.stats with
        losses_G := s.stats.losses_G ++ [mod_loss],
        epochs_trained_G := s.stats.epochs_trained_G + 1 }
    | Role.D => { s.stats with
        losses_D := s.stats.losses_D ++ [mod_loss],
        epochs_trained_D := s.stats.epochs_trained_D + 1 }
  let c := confusionCounts env.d_thresh inp.y mod_pred
  let stats2 := recordRates env.d_thresh inp.y mod_pred stats1
  let gParams1 := if tt = Role.G then env.gOptStep s.gParams else s.gParams
  let dParams1 := if tt = Role.D then
      (env.dOptStep s.dParams).map (clamp (-(1 / 100)) (1 / 100))
    else s.dParams
  let w_dists := env.all_Wasserstein_dists
      (eval_generator env (env.latent_space 256)) (env.dataset 256)
  let w_dist_mean := mean w_dists
  ({ stats := stats2, gMode := inp.gModeAfter, dMode := dModeAfter,
     gParams := gParams1, dParams := dParams1,
     all_dists := s.all_dists ++ [w_dist_mean] },
   { tt := tt, y_flat := inp.y, mod_pred_flat := mod_pred,
     mod_loss := mod_loss, fP := c.1, fN := c.2.1, tP := c.2.2.1,
     tN := c.2.2.2, dModeAtForward := dModeForward,
     dModeAtBackward := dModeAfter, gModeAtInputForward := inp.gModeAtForward })

/-- The `for epoch in range(n_epochs)` loop: iterate `trainStep`. -/
def trainLoop (env : GANEnv α) (policy : TrainerState → Role)
    (n_batch : Nat) : Nat → TrainerState → TrainerState
  | 0, s => s
  | n + 1, s => trainLoop env policy n_batch n (trainStep env policy n_batch s).1

/-- `WassersteinGANTrainer.train(n_epochs, n_batch)` (lines 39-105):
`all_dists` starts empty (line 40), then the loop body runs `n_epochs`
times. -/
def train (env : GANEnv α) (policy : TrainerState → Role)
    (n_epochs n_batch : Nat) (s : TrainerState) : TrainerState :=
  trainLoop env policy n_batch n_epochs { s with all_dists := [] }

/-- The ledger as `__init__` leaves it (lines 29-34): empty sequences,
zero counters. -/
def initStats : TrainerStats :=
  { losses_G := [], losses_D := [], epochs_trained_G := 0,
    epochs_trained_D := 0, d_fpr := [], d_precision := [], d_recall := [] }

/-- A freshly constructed trainer: torch modules start in training mode. -/
def initState (gParams dParams : List ℚ) : TrainerState :=
  { stats := initStats, gMode := Mode.training, dMode := Mode.training,
    gParams := gParams, dParams := dParams, all_dists := [] }

/-! ## Helper lemmas and concrete instances -/

/-- Clamping into `[lo, hi]` lands in `[lo, hi]` whenever `lo ≤ hi`. -/
lemma clamp_bounds (lo hi x : ℚ) (h : lo ≤ hi) :
    lo ≤ clamp lo hi x ∧ clamp lo hi x ≤ hi :=
  ⟨le_max_left lo _, max_le h (min_le_right x hi)⟩

lemma recordRates_losses_G (th : ℚ) (y p : List ℚ) (st : TrainerStats) :
    (recordRates th y p st).losses_G = st.losses_G := by
  unfold recordRates
  dsimp only
  split_ifs <;> rfl

lemma recordRates_losses_D (th : ℚ) (y p : List ℚ) (st : TrainerStats) :
    (recordRates th y p st).losses_D = st.losses_D := by
  unfold recordRates
  dsimp only
  split_ifs <;> rfl

lemma recordRates_epochs_G (th : ℚ) (y p : List ℚ) (st : TrainerStats) :
    (recordRates th y p st).epochs_trained_G = st.epochs_trained_G := by
  unfold recordRates
  dsimp only
  split_ifs <;> rfl

lemma recordRates_epochs_D (th : ℚ) (y p : List ℚ) (st : TrainerStats) :
    (recordRates th y p st).epochs_trained_D = st.epochs_trained_D := by
  unfold recordRates
  dsimp only
  split_ifs <;> rfl

/-- A concrete environment over rational rows, used to instantiate the
universally quantified theorems: the samplers return zero rows, the
generator is the identity, the discriminator scores every row as 1. -/
def envW : GANEnv ℚ :=
  { latent_space := fun n => List.replicate n 0
    dataset := fun n => List.replicate n 0
    gModel := id
    dModel := fun xs => xs.map (fun _ => (1 : ℚ))
    g_loss := fun _ _ => 0
    d_loss := fun _ _ => 0
    gOptStep := id
    dOptStep := id
    all_Wasserstein_dists := fun _ _ => []
    d_thresh := 1 / 2 }

/-- A scheduling policy that always picks the Generator. -/
def polG : TrainerState → Role := fun _ => Role.G

/-- A scheduling policy that always picks the Discriminator. -/
def polD : TrainerState → Role := fun _ => Role.D

/-! ## Claims -/

/-- Claim C1: in the Wasserstein trainer's train loop, after every step in
which the scheduling policy selected the Discriminator/critic role, the
discriminator's parameter vector is exactly the optimizer-stepped vector
clamped element-wise into [-0.01, 0.01], and hence every discriminator
parameter value lies in [-0.01, 0.01]. -/
theorem c1_weight_clamp (env : GANEnv α) (policy : TrainerState → Role)
    (n_batch : Nat) (s : TrainerState) (h : policy s = Role.D) :
    (trainStep env policy n_batch s).1.dParams
        = (env.dOptStep s.dParams).map (clamp (-(1 / 100)) (1 / 100))
    ∧ ∀ p ∈ (trainStep env policy n_batch s).1.dParams,
        -(1 / 100 : ℚ) ≤ p ∧ p ≤ 1 / 100 := by
  have hd : (trainStep env policy n_batch s).1.dParams
      = (env.dOptStep s.dParams).map (clamp (-(1 / 100)) (1 / 100)) := by
    simp [trainStep, h]
  refine ⟨hd, ?_⟩
  intro p hp
  rw [hd] at hp
  rcases List.mem_map.mp hp with ⟨x, -, rfl⟩
  exact clamp_bounds _ _ x (by norm_num)

/-- Witness for C1 at a concrete environment and state. -/
theorem c1_weight_clamp_witness :
    polD (initState [] [5, -2]) = Role.D
    ∧ ∀ p ∈ (trainStep envW polD 4 (initState [] [5, -2])).1.dParams,
        -(1 / 100 : ℚ) ≤ p ∧ p ≤ 1 / 100 :=
  ⟨rfl, (c1_weight_clamp envW polD 4 (initState [] [5, -2]) rfl).2⟩

/-- Claim C4: for batch size 16, `discriminator_input` returns the label
vector of exactly 8 zeros followed by 8 ones, and an input tensor that is
the generator's output on 8 fresh latent samples concatenated before 8
samples drawn from the real dataset. -/
theorem c4_discriminator_input_16 (env : GANEnv α) (m : Mode) :
    (discriminator_input env m 16).y
        = List.replicate 8 (0 : ℚ) ++ List.replicate 8 (1 : ℚ)
    ∧ (discriminator_input env m 16).dis_in
        = env.gModel (env.latent_space 8) ++ env.dataset 8 :=
  ⟨rfl, rfl⟩

/-- Claim C7: `generator_input` with batch size `n` pushes a full batch of
`n` latent samples through the generator and pairs the output with the
label vector `replicate n 1`, i.e. a vector of length `n` whose every
entry is 1. -/
theorem c7_generator_input (env : GANEnv α) (m : Mode) (n : Nat) :
    (generator_input env m n).dis_in = env.gModel (env.latent_space n)
    ∧ (generator_input env m n).y = List.replicate n (1 : ℚ)
    ∧ (generator_input env m n).y.length = n :=
  ⟨rfl, rfl, List.length_replicate n 1⟩

/-- The per-role loss sequence `stats["losses"][r]`. -/
def lossesOf (st : TrainerStats) : Role → List ℚ
  | Role.G => st.losses_G
  | Role.D => st.losses_D

/-- The per-role counter `stats["epochs_trained"][r]`. -/
def epochsOf (st : TrainerStats) : Role → Nat
  | Role.G => st.epochs_trained_G
  | Role.D => st.epochs_trained_D

lemma trainStep_losses (env : GANEnv α) (policy : TrainerState → Role)
    (n_batch : Nat) (s : TrainerState) (r : Role) :
    lossesOf (trainStep env policy n_batch s).1.stats r
      = (if r = policy s then
          lossesOf s.stats r ++ [(trainStep env policy n_batch s).2.mod_loss]
        else lossesOf s.stats r) := by
  cases hr : policy s <;> cases r <;>
    simp [trainStep, hr, lossesOf, recordRates_losses_G, recordRates_losses_D]

lemma trainStep_epochs (env : GANEnv α) (policy : TrainerState → Role)
    (n_batch : Nat) (s : TrainerState) (r : Role) :
    epochsOf (trainStep env policy n_batch s).1.stats r
      = (if r = policy s then epochsOf s.stats r + 1 else epochsOf s.stats r) := by
  cases hr : policy s <;> cases r <;>
    simp [trainStep, hr, epochsOf, recordRates_epochs_G, recordRates_epochs_D]

lemma trainStep_losses_sum (env : GANEnv α) (policy : TrainerState → Role)
    (n_batch : Nat) (s : TrainerState) :
    (trainStep env policy n_batch s).1.stats.losses_G.length
        + (trainStep env policy n_batch s).1.stats.losses_D.length
      = s.stats.losses_G.length + s.stats.losses_D.length + 1 := by
  have hG := trainStep_losses env policy n_batch s Role.G
  have hD := trainStep_losses env policy n_batch s Role.D
  cases hr : policy s <;> rw [hr] at hG hD <;>
    simp [lossesOf] at hG hD <;> simp [hG, hD] <;> omega

lemma trainStep_epochs_sum (env : GANEnv α) (policy : TrainerState → Role)
    (n_batch : Nat) (s : TrainerState) :
    (trainStep env policy n_batch s).1.stats.epochs_trained_G
        + (trainStep env policy n_batch s).1.stats.epochs_trained_D
      = s.stats.epochs_trained_G + s.stats.epochs_trained_D + 1 := by
  have hG := trainStep_epochs env policy n_batch s Role.G
  have hD := trainStep_epochs env policy n_batch s Role.D
  cases hr : policy s <;> rw [hr] at hG hD <;>
    simp [epochsOf] at hG hD <;> simp [hG, hD] <;> omega

lemma trainLoop_losses_sum (env : GANEnv α) (policy : TrainerState → Role)
    (n_batch : Nat) :
    ∀ (n : Nat) (s : TrainerState),
      (trainLoop env policy n_batch n s).stats.losses_G.length
          + (trainLoop env policy n_batch n s).stats.losses_D.length
        = s.stats.losses_G.length + s.stats.losses_D.length + n := by
  intro n
  induction n with
  | zero => intro s; rfl
  | succ k ih =>
    intro s
    have hstep := trainStep_losses_sum env policy n_batch s
    simp only [trainLoop]
    rw [ih]
    omega

lemma trainLoop_epochs_sum (env : GANEnv α) (policy : TrainerState → Role)
    (n_batch : Nat) :
    ∀ (n : Nat) (s : TrainerState),
      (trainLoop env policy n_batch n s).stats.epochs_trained_G
          + (trainLoop env policy n_batch n s).stats.epochs_trained_D
        = s.stats.epochs_trained_G + s.stats.epochs_trained_D + n := by
  intro n
  induction n with
  | zero => intro s; rfl
  | succ k ih =>
    intro s
    have hstep := trainStep_epochs_sum env policy n_batch s
    simp only [trainLoop]
    rw [ih]
    omega

/-- Claim C2: each training step appends exactly one loss value to the loss
sequence of the single role the policy selected (leaving the other role's
sequence unchanged) and increments exactly that role's epochs-trained
counter, so after `train` runs `N` steps from a freshly constructed
trainer the two per-role loss-sequence lengths sum to `N`, as do the two
epoch counters. -/
theorem c2_losses_sum (env : GANEnv α) (policy : TrainerState → Role)
    (N n_batch : Nat) (gP dP : List ℚ) :
    (∀ (s : TrainerState) (r : Role),
        lossesOf (trainStep env policy n_batch s).1.stats r
          = (if r = policy s then
              lossesOf s.stats r ++ [(trainStep env policy n_batch s).2.mod_loss]
            else lossesOf s.stats r)
      ∧ epochsOf (trainStep env policy n_batch s).1.stats r
          = (if r = policy s then epochsOf s.stats r + 1
            else epochsOf s.stats r))
    ∧ (train env policy N n_batch (initState gP dP)).stats.losses_G.length
        + (train env policy N n_batch (initState gP dP)).stats.losses_D.length
      = N
    ∧ (train env policy N n_batch (initState gP dP)).stats.epochs_trained_G
        + (train env policy N n_batch (initState gP dP)).stats.epochs_trained_D
      = N := by
  refine ⟨fun s r => ⟨trainStep_losses env policy n_batch s r,
    trainStep_epochs env policy n_batch s r⟩, ?_, ?_⟩
  · have := trainLoop_losses_sum env policy n_batch N
      { initState gP dP with all_dists := [] }
    simpa [train, initState, initStats] using this
  · have := trainLoop_epochs_sum env policy n_batch N
      { initState gP dP with all_dists := [] }
    simpa [train, initState, initStats] using this

lemma trainStep_all_dists (env : GANEnv α) (policy : TrainerState → Role)
    (n_batch : Nat) (s : TrainerState) :
    (trainStep env policy n_batch s).1.all_dists
      = s.all_dists
          ++ [mean (env.all_Wasserstein_dists
                (eval_generator env (env.latent_space 256)) (env.dataset 256))] := by
  cases hr : policy s <;> simp [trainStep, hr]

lemma trainLoop_all_dists_length (env : GANEnv α) (policy : TrainerState → Role)
    (n_batch : Nat) :
    ∀ (n : Nat) (s : TrainerState),
      (trainLoop env policy n_batch n s).all_dists.length
        = s.all_dists.length + n := by
  intro n
  induction n with
  | zero => intro s; rfl
  | succ k ih =>
    intro s
    simp only [trainLoop]
    rw [ih, trainStep_all_dists]
    simp
    omega

/-- Claim C3: every iteration of the train loop, whichever role the policy
selected, appends to the distance-history sequence the mean of the pairwise
Wasserstein distances between a fresh generator batch (on fresh latent
samples) and a fresh batch from the real dataset; consequently after
`train` with `n_epochs = 7` the distance-history sequence has exactly 7
entries. -/
theorem c3_wass_dist_history (env : GANEnv α) (policy : TrainerState → Role)
    (n_batch : Nat) (s : TrainerState) :
    (∀ s0 : TrainerState,
        (trainStep env policy n_batch s0).1.all_dists
          = s0.all_dists
              ++ [mean (env.all_Wasserstein_dists
                    (eval_generator env (env.latent_space 256))
                    (env.dataset 256))])
    ∧ (train env policy 7 n_batch s).all_dists.length = 7 := by
  refine ⟨fun s0 => trainStep_all_dists env policy n_batch s0, ?_⟩
  have := trainLoop_all_dists_length env policy n_batch 7 { s with all_dists := [] }
  simpa [train] using this

/-- Claim C6: on a step where the policy selects the Generator, the
discriminator is in inference (eval) mode during the prediction forward
pass and is back in training mode at the backward pass; on a step where the
policy selects the Discriminator, the discriminator is not switched to
inference mode for its forward pass (its mode at the forward pass is
whatever it was when the step began). -/
theorem c6_discriminator_mode (env : GANEnv α) (policy : TrainerState → Role)
    (n_batch : Nat) (s : TrainerState) :
    (policy s = Role.G →
        (trainStep env policy n_batch s).2.dModeAtForward = Mode.inference
        ∧ (trainStep env policy n_batch s).2.dModeAtBackward = Mode.training)
    ∧ (policy s = Role.D →
        (trainStep env policy n_batch s).2.dModeAtForward = s.dMode
        ∧ (trainStep env policy n_batch s).2.dModeAtBackward = Mode.training) := by
  constructor
  · intro h
    constructor <;> simp [trainStep, h]
  · intro h
    constructor <;> simp [trainStep, h]

/-- Witness for C6: both implications discharged at concrete policies. -/
theorem c6_discriminator_mode_witness :
    ((trainStep envW polG 4 (initState [] [])).2.dModeAtForward = Mode.inference
      ∧ (trainStep envW polG 4 (initState [] [])).2.dModeAtBackward = Mode.training)
    ∧ ((trainStep envW polD 4 (initState [] [])).2.dModeAtForward
          = (initState [] []).dMode
      ∧ (trainStep envW polD 4 (initState [] [])).2.dModeAtBackward = Mode.training) :=
  ⟨(c6_discriminator_mode envW polG 4 (initState [] [])).1 rfl,
   (c6_discriminator_mode envW polD 4 (initState [] [])).2 rfl⟩

/-- Counterexample to C9: a step that trains the Generator never touches
the generator's mode, so starting a step with the generator in inference
mode ends it with the generator still in inference mode — the claim that
"every training step leaves both models in training mode when it
completes" is false at this input. -/
theorem c9_counterexample :
    (trainStep envW polG 4
        { initState [] [] with gMode := Mode.inference }).1.gMode
      = Mode.inference
    ∧ Mode.inference ≠ Mode.training :=
  ⟨rfl, by decide⟩

/-- Claim C9 (amended): every training step leaves the discriminator in
training mode when it completes (set immediately after the prediction
forward pass, even if it was in inference mode before); a step that trains
the Discriminator also leaves the generator in training mode (set back
after its eval-mode forward pass inside discriminator-input construction),
while a step that trains the Generator leaves the generator's mode
unchanged, since generator-input construction does not toggle modes. -/
theorem c9_modes_after_step (env : GANEnv α) (policy : TrainerState → Role)
    (n_batch : Nat) (s : TrainerState) :
    (trainStep env policy n_batch s).1.dMode = Mode.training
    ∧ (policy s = Role.D →
        (trainStep env policy n_batch s).1.gMode = Mode.training)
    ∧ (policy s = Role.G →
        (trainStep env policy n_batch s).1.gMode = s.gMode) := by
  refine ⟨rfl, ?_, ?_⟩
  · intro h
    simp [trainStep, h, in_functions, discriminator_input]
  · intro h
    simp [trainStep, h, in_functions, generator_input]

/-- Witness for C9 (amended): both implications discharged at concrete
policies. -/
theorem c9_modes_after_step_witness :
    (trainStep envW polD 4 (initState [] [])).1.dMode = Mode.training
    ∧ (trainStep envW polD 4 (initState [] [])).1.gMode = Mode.training
    ∧ (trainStep envW polG 4 (initState [] [])).1.gMode
        = (initState [] []).gMode :=
  ⟨(c9_modes_after_step envW polD 4 (initState [] [])).1,
   (c9_modes_after_step envW polD 4 (initState [] [])).2.1 rfl,
   (c9_modes_after_step envW polG 4 (initState [] [])).2.2 rfl⟩

/-- Claim C8: for every odd batch size `n`, `discriminator_input` draws
`ceil(n/2)` generator (fake, label 0) rows and `floor(n/2)` real-dataset
(label 1) rows, and — whenever the samplers honour their batch-size
contract and the generator preserves batch size — the returned input tensor
and label vector both have exactly `n` rows. -/
theorem c8_odd_batch (env : GANEnv α) (m : Mode) (n : Nat)
    (hodd : n % 2 = 1)
    (hGen : ∀ xs : List α, (env.gModel xs).length = xs.length)
    (hLat : ∀ k : Nat, (env.latent_space k).length = k)
    (hData : ∀ k : Nat, (env.dataset k).length = k) :
    (discriminator_input env m n).y
        = List.replicate ((n + 1) / 2) (0 : ℚ)
            ++ List.replicate (n / 2) (1 : ℚ)
    ∧ (env.gModel (env.latent_space ((n + 1) / 2))).length = (n + 1) / 2
    ∧ (discriminator_input env m n).dis_in.length = n
    ∧ (discriminator_input env m n).y.length = n := by
  refine ⟨rfl, ?_, ?_, ?_⟩
  · rw [hGen, hLat]
  · simp only [discriminator_input, List.length_append, hGen, hLat, hData]
    omega
  · simp only [discriminator_input, List.length_append, List.length_replicate]
    omega

/-- Witness for C8 at the concrete environment `envW` and n = 3. -/
theorem c8_odd_batch_witness :
    (3 : Nat) % 2 = 1
    ∧ (discriminator_input envW Mode.training 3).dis_in.length = 3
    ∧ (discriminator_input envW Mode.training 3).y.length = 3 :=
  ⟨rfl,
   (c8_odd_batch envW Mode.training 3 rfl (fun _ => rfl)
      (fun k => List.length_replicate k 0)
      (fun k => List.length_replicate k 0)).2.2.1,
   (c8_odd_batch envW Mode.training 3 rfl (fun _ => rfl)
      (fun k => List.length_replicate k 0)
      (fun k => List.length_replicate k 0)).2.2.2⟩

lemma confusionCounts_all_zero (th : ℚ) (y : List ℚ) :
    ∀ p : List ℚ, (∀ v ∈ y, v = 0) →
      (confusionCounts th y p).2.2.1 = 0 ∧ (confusionCounts th y p).2.1 = 0 := by
  induction y with
  | nil => intro p _; cases p <;> simp [confusionCounts]
  | cons yv ys ih =>
    intro p h
    cases p with
    | nil => simp [confusionCounts]
    | cons pv ps =>
      have hy : yv = 0 := h yv (List.mem_cons_self yv ys)
      have hrec := ih ps (fun v hv => h v (List.mem_cons_of_mem yv hv))
      simp only [confusionCounts, hy, if_pos]
      split_ifs <;> simpa using hrec

lemma confusionCounts_no_zero (th : ℚ) (y : List ℚ) :
    ∀ p : List ℚ, (∀ v ∈ y, v ≠ 0) →
      (confusionCounts th y p).1 = 0 ∧ (confusionCounts th y p).2.2.2 = 0 := by
  induction y with
  | nil => intro p _; cases p <;> simp [confusionCounts]
  | cons yv ys ih =>
    intro p h
    cases p with
    | nil => simp [confusionCounts]
    | cons pv ps =>
      have hy : yv ≠ 0 := h yv (List.mem_cons_self yv ys)
      have hrec := ih ps (fun v hv => h v (List.mem_cons_of_mem yv hv))
      simp only [confusionCounts]
      rw [if_neg hy]
      split_ifs <;> simpa using hrec

lemma recordRates_d_fpr_unchanged (th : ℚ) (y p : List ℚ) (st : TrainerStats)
    (h : (confusionCounts th y p).1 + (confusionCounts th y p).2.2.2 = 0) :
    (recordRates th y p st).d_fpr = st.d_fpr := by
  unfold recordRates
  dsimp only
  split_ifs <;> first | rfl | omega

lemma recordRates_d_recall_unchanged (th : ℚ) (y p : List ℚ) (st : TrainerStats)
    (h : (confusionCounts th y p).2.2.1 + (confusionCounts th y p).2.1 = 0) :
    (recordRates th y p st).d_recall = st.d_recall := by
  unfold recordRates
  dsimp only
  split_ifs <;> first | rfl | omega

lemma recordRates_d_precision_unchanged (th : ℚ) (y p : List ℚ)
    (st : TrainerStats)
    (h : (confusionCounts th y p).2.2.1 + (confusionCounts th y p).1 = 0) :
    (recordRates th y p st).d_precision = st.d_precision := by
  unfold recordRates
  dsimp only
  split_ifs <;> first | rfl | omega

lemma recordRates_precision_all_zero (th : ℚ) (y p : List ℚ)
    (st : TrainerStats) (h : ∀ v ∈ y, v = 0) :
    (recordRates th y p st).d_precision
      = st.d_precision
          ++ (if 0 < (confusionCounts th y p).1 then [(0 : ℚ)] else []) := by
  obtain ⟨htP, hfN⟩ := confusionCounts_all_zero th y p h
  unfold recordRates
  dsimp only
  split_ifs <;> first | omega | (simp [htP])

/-- Counterexample to C5: a concrete Discriminator-role step with batch
size 1 has the all-zero label vector `[0]`, yet because the discriminator
scores the single (fake) row above the threshold the precision denominator
`tP + fP = 1` is nonzero, so the step appends 0 to the precision sequence —
contradicting the claim that an all-zero-label batch "must not append to
the precision or recall sequences". The fpr sequence gains an entry and the
recall sequence stays empty, as the claim says. -/
theorem c5_counterexample :
    (trainStep envW polD 1 (initState [] [])).2.y_flat = [(0 : ℚ)]
    ∧ (trainStep envW polD 1 (initState [] [])).1.stats.d_precision = [(0 : ℚ)]
    ∧ (trainStep envW polD 1 (initState [] [])).1.stats.d_fpr = [(1 : ℚ)]
    ∧ (trainStep envW polD 1 (initState [] [])).1.stats.d_recall = [] := by
  refine ⟨rfl, ?_, ?_, ?_⟩ <;>
    norm_num [trainStep, polD, envW, initState, initStats, in_functions,
      discriminator_input, recordRates, confusionCounts, loss_functions]

/-- Claim C5 (amended): each of the three rate metrics is appended to its
ledger sequence on a step only when its denominator is nonzero; a step
whose batch has all-zero labels never appends to the recall sequence, may
append to the false-positive-rate sequence, and appends to the precision
sequence exactly when at least one prediction exceeds the threshold (the
appended precision value then being 0, since there are no true
positives). -/
theorem c5_rate_guards (th : ℚ) (y p : List ℚ) (st : TrainerStats)
    (h : ∀ v ∈ y, v = 0) :
    (∀ (y2 p2 : List ℚ) (st2 : TrainerStats),
        ((confusionCounts th y2 p2).1 + (confusionCounts th y2 p2).2.2.2 = 0 →
          (recordRates th y2 p2 st2).d_fpr = st2.d_fpr)
      ∧ ((confusionCounts th y2 p2).2.2.1 + (confusionCounts th y2 p2).1 = 0 →
          (recordRates th y2 p2 st2).d_precision = st2.d_precision)
      ∧ ((confusionCounts th y2 p2).2.2.1 + (confusionCounts th y2 p2).2.1 = 0 →
          (recordRates th y2 p2 st2).d_recall = st2.d_recall))
    ∧ (recordRates th y p st).d_recall = st.d_recall
    ∧ (recordRates th y p st).d_precision
        = st.d_precision
            ++ (if 0 < (confusionCounts th y p).1 then [(0 : ℚ)] else []) := by
  refine ⟨fun y2 p2 st2 =>
    ⟨recordRates_d_fpr_unchanged th y2 p2 st2,
     recordRates_d_precision_unchanged th y2 p2 st2,
     recordRates_d_recall_unchanged th y2 p2 st2⟩, ?_, ?_⟩
  · obtain ⟨htP, hfN⟩ := confusionCounts_all_zero th y p h
    exact recordRates_d_recall_unchanged th y p st (by omega)
  · exact recordRates_precision_all_zero th y p st h

/-- Witness for C5 (amended) on the all-zero batch `y = [0]`, `p = [1]`. -/
theorem c5_rate_guards_witness :
    (recordRates (1 / 2) [(0 : ℚ)] [(1 : ℚ)] initStats).d_recall
        = initStats.d_recall
    ∧ (recordRates (1 / 2) [(0 : ℚ)] [(1 : ℚ)] initStats).d_precision
        = initStats.d_precision
            ++ (if 0 < (confusionCounts (1 / 2) [(0 : ℚ)] [(1 : ℚ)]).1
                then [(0 : ℚ)] else []) :=
  ⟨(c5_rate_guards (1 / 2) [(0 : ℚ)] [(1 : ℚ)] initStats (by simp)).2.1,
   (c5_rate_guards (1 / 2) [(0 : ℚ)] [(1 : ℚ)] initStats (by simp)).2.2⟩

/-- Claim C10: the confusion-count computation (thresholding predictions
strictly above `d_thresh`) runs on every training step regardless of role —
the step's recorded counts are exactly `confusionCounts` of the step's
flattened labels and predictions — and, because generator-input labels are
all ones, a step that trains the Generator has `fP = 0` and `tN = 0` and
therefore never appends to the false-positive-rate sequence. -/
theorem c10_rates_every_step (env : GANEnv α) (policy : TrainerState → Role)
    (n_batch : Nat) (s : TrainerState) :
    (∀ s0 : TrainerState,
        (trainStep env policy n_batch s0).2.fP
            = (confusionCounts env.d_thresh
                (trainStep env policy n_batch s0).2.y_flat
                (trainStep env policy n_batch s0).2.mod_pred_flat).1
        ∧ (trainStep env policy n_batch s0).2.fN
            = (confusionCounts env.d_thresh
                (trainStep env policy n_batch s0).2.y_flat
                (trainStep env policy n_batch s0).2.mod_pred_flat).2.1
        ∧ (trainStep env policy n_batch s0).2.tP
            = (confusionCounts env.d_thresh
                (trainStep env policy n_batch s0).2.y_flat
                (trainStep env policy n_batch s0).2.mod_pred_flat).2.2.1
        ∧ (trainStep env policy n_batch s0).2.tN
            = (confusionCounts env.d_thresh
                (trainStep env policy n_batch s0).2.y_flat
                (trainStep env policy n_batch s0).2.mod_pred_flat).2.2.2)
    ∧ (policy s = Role.G →
        (trainStep env policy n_batch s).2.y_flat = List.replicate n_batch (1 : ℚ)
        ∧ (trainStep env policy n_batch s).2.fP = 0
        ∧ (trainStep env policy n_batch s).2.tN = 0
        ∧ (trainStep env policy n_batch s).1.stats.d_fpr = s.stats.d_fpr) := by
  constructor
  · intro s0
    cases hr : policy s0 <;>
      simp [trainStep, hr]
  · intro h
    have hone : ∀ v ∈ List.replicate n_batch (1 : ℚ), v ≠ 0 := by
      intro v hv
      rw [List.eq_of_mem_replicate hv]
      norm_num
    have hcc := confusionCounts_no_zero env.d_thresh
      (List.replicate n_batch (1 : ℚ))
      (env.dModel (generator_input env s.gMode n_batch).dis_in) hone
    refine ⟨?_, ?_, ?_, ?_⟩
    · simp [trainStep, h, in_functions, generator_input]
    · simpa [trainStep, h, in_functions, generator_input] using hcc.1
    · simpa [trainStep, h, in_functions, generator_input] using hcc.2
    · have hfpr := recordRates_d_fpr_unchanged env.d_thresh
        (List.replicate n_batch (1 : ℚ))
        (env.dModel (generator_input env s.gMode n_batch).dis_in)
        { s.stats with
            losses_G := s.stats.losses_G
              ++ [loss_functions env Role.G
                    (env.dModel (generator_input env s.gMode n_batch).dis_in)
                    (List.replicate n_batch (1 : ℚ))],
            epochs_trained_G := s.stats.epochs_trained_G + 1 }
        (by omega)
      simpa [trainStep, h, in_functions, generator_input] using hfpr

/-- Witness for C10 at a concrete Generator-selecting policy. -/
theorem c10_rates_every_step_witness :
    (trainStep envW polG 4 (initState [] [])).2.y_flat
        = List.replicate 4 (1 : ℚ)
    ∧ (trainStep envW polG 4 (initState [] [])).2.fP = 0
    ∧ (trainStep envW polG 4 (initState [] [])).2.tN = 0
    ∧ (trainStep envW polG 4 (initState [] [])).1.stats.d_fpr
        = (initState [] []).stats.d_fpr :=
  (c10_rates_every_step envW polG 4 (initState [] [])).2 rfl
